import Mathlib

/-!
A shallow embedding in Lean 4 of the `homework_bot` repository
(`src/homework.py` and `src/exceptions.py`): a Telegram bot that polls
the Practicum homework-status API, detects status changes and notifies
one chat, with duplicate suppression and per-iteration error recovery.

Python values flowing through the program are modelled by the `Json`
inductive; Python exceptions by `PyError`; the HTTP collaborator
(`requests.get`) and the Telegram collaborator (`bot.send_message`) by
environment-supplied outcomes (`HttpOutcome`, per-call success booleans).
The poll loop `main` (lines 194-220 of homework.py) is modelled as the
step function `iterate` on an explicit `LoopState`, with an `Except`
result whose `error` case means an exception escaped the loop body and
terminated the process.

Note on `exceptions.py`: `homework.py` imports `WrongAPIResponse` from
`exceptions`, but the `exceptions.py` in this snapshot does not define
that class; we model `WrongAPIResponse` as an error kind carrying the
message string passed at its raise sites in `homework.py`.
-/

namespace HomeworkBot

/-- A Python/JSON value as it appears in API payloads and reports. -/
inductive Json where
  | null : Json
  | bool (b : Bool) : Json
  | num (n : Int) : Json
  | str (s : String) : Json
  | arr (xs : List Json) : Json
  | obj (kvs : List (String × Json)) : Json

mutual

/-- Structural (Boolean) equality on `Json`, modelling Python `==` on
decoded payload values. -/
def Json.beq : Json → Json → Bool
  | .null, .null => true
  | .bool a, .bool b => a == b
  | .num a, .num b => a == b
  | .str a, .str b => a == b
  | .arr xs, .arr ys => Json.beqList xs ys
  | .obj xs, .obj ys => Json.beqObj xs ys
  | _, _ => false

/-- Elementwise equality of JSON arrays. -/
def Json.beqList : List Json → List Json → Bool
  | [], [] => true
  | x :: xs, y :: ys => Json.beq x y && Json.beqList xs ys
  | _, _ => false

/-- Pairwise equality of JSON objects (key order included, as produced
by decoding). -/
def Json.beqObj : List (String × Json) → List (String × Json) → Bool
  | [], [] => true
  | (k, v) :: xs, (l, w) :: ys => k == l && Json.beq v w && Json.beqObj xs ys
  | _, _ => false

end

mutual

/-- `Json.beq` implies propositional equality. -/
def Json.eq_of_beq : ∀ {a b : Json}, Json.beq a b = true → a = b
  | .null, .null, _ => rfl
  | .bool a, .bool b, h => by
      have hb : a = b := by simpa [Json.beq] using h
      exact hb ▸ rfl
  | .num a, .num b, h => by
      have hb : a = b := by simpa [Json.beq] using h
      exact hb ▸ rfl
  | .str a, .str b, h => by
      have hb : a = b := by simpa [Json.beq] using h
      exact hb ▸ rfl
  | .arr xs, .arr ys, h => by
      have hb : xs = ys := Json.eqList_of_beq (by simpa [Json.beq] using h)
      exact hb ▸ rfl
  | .obj xs, .obj ys, h => by
      have hb : xs = ys := Json.eqObj_of_beq (by simpa [Json.beq] using h)
      exact hb ▸ rfl
  | .null, .bool _, h | .null, .num _, h | .null, .str _, h
  | .null, .arr _, h | .null, .obj _, h
  | .bool _, .null, h | .bool _, .num _, h | .bool _, .str _, h
  | .bool _, .arr _, h | .bool _, .obj _, h
  | .num _, .null, h | .num _, .bool _, h | .num _, .str _, h
  | .num _, .arr _, h | .num _, .obj _, h
  | .str _, .null, h | .str _, .bool _, h | .str _, .num _, h
  | .str _, .arr _, h | .str _, .obj _, h
  | .arr _, .null, h | .arr _, .bool _, h | .arr _, .num _, h
  | .arr _, .str _, h | .arr _, .obj _, h
  | .obj _, .null, h | .obj _, .bool _, h | .obj _, .num _, h
  | .obj _, .str _, h | .obj _, .arr _, h => nomatch h

/-- `Json.beqList` implies propositional equality. -/
def Json.eqList_of_beq : ∀ {xs ys : List Json},
    Json.beqList xs ys = true → xs = ys
  | [], [], _ => rfl
  | x :: xs, y :: ys, h => by
      have hp : Json.beq x y = true ∧ Json.beqList xs ys = true := by
        simpa [Json.beqList, Bool.and_eq_true] using h
      have h1 := Json.eq_of_beq hp.1
      have h2 := Json.eqList_of_beq hp.2
      rw [h1, h2]
  | [], _ :: _, h => nomatch h
  | _ :: _, [], h => nomatch h

/-- `Json.beqObj` implies propositional equality. -/
def Json.eqObj_of_beq : ∀ {xs ys : List (String × Json)},
    Json.beqObj xs ys = true → xs = ys
  | [], [], _ => rfl
  | (k, v) :: xs, (l, w) :: ys, h => by
      have hp : (k == l) = true ∧ Json.beq v w = true ∧
          Json.beqObj xs ys = true := by
        simpa [Json.beqObj, Bool.and_eq_true, and_assoc] using h
      have h0 : k = l := by simpa using hp.1
      have h1 := Json.eq_of_beq hp.2.1
      have h2 := Json.eqObj_of_beq hp.2.2
      rw [h0, h1, h2]
  | [], _ :: _, h => nomatch h
  | _ :: _, [], h => nomatch h

end

mutual

/-- `Json.beq` is reflexive. -/
def Json.beq_refl : ∀ (a : Json), Json.beq a a = true
  | .null => rfl
  | .bool a => by simp [Json.beq]
  | .num a => by simp [Json.beq]
  | .str a => by simp [Json.beq]
  | .arr xs => by simpa [Json.beq] using Json.beqList_refl xs
  | .obj kvs => by simpa [Json.beq] using Json.beqObj_refl kvs

/-- `Json.beqList` is reflexive. -/
def Json.beqList_refl : ∀ (xs : List Json), Json.beqList xs xs = true
  | [] => rfl
  | x :: xs => by
      simp [Json.beqList, Json.beq_refl x, Json.beqList_refl xs]

/-- `Json.beqObj` is reflexive. -/
def Json.beqObj_refl : ∀ (kvs : List (String × Json)),
    Json.beqObj kvs kvs = true
  | [] => rfl
  | (k, v) :: kvs => by
      simp [Json.beqObj, Json.beq_refl v, Json.beqObj_refl kvs]

end

instance : DecidableEq Json := fun a b =>
  if h : Json.beq a b = true then .isTrue (Json.eq_of_beq h)
  else .isFalse (fun he => h (he ▸ Json.beq_refl a))

mutual

/-- Python `repr` of a value, as used when a value is interpolated into
an f-string inside a container (dicts and lists render their elements
with `repr`).  String escaping inside `repr` is elided: the repr of a
string is the string between two apostrophes. -/
def pyRepr : Json → String
  | .null => "None"
  | .bool true => "True"
  | .bool false => "False"
  | .num n => toString n
  | .str s => "\x27" ++ s ++ "\x27"
  | .arr xs => "[" ++ pyReprList xs ++ "]"
  | .obj kvs => "\x7b" ++ pyReprObj kvs ++ "\x7d"

/-- Comma-separated `repr`s of the elements of a Python list. -/
def pyReprList : List Json → String
  | [] => ""
  | [x] => pyRepr x
  | x :: xs => pyRepr x ++ ", " ++ pyReprList xs

/-- Comma-separated `'key': repr(value)` pairs of a Python dict. -/
def pyReprObj : List (String × Json) → String
  | [] => ""
  | [(k, v)] => "\x27" ++ k ++ "\x27: " ++ pyRepr v
  | (k, v) :: kvs => "\x27" ++ k ++ "\x27: " ++ pyRepr v ++ ", " ++ pyReprObj kvs

end

/-- Python `str` of a value, as used when a value is interpolated into
an f-string at top level: a string renders as itself, everything else
as its `repr`. -/
def pyStr : Json → String
  | .str s => s
  | v => pyRepr v

/-- The Python exceptions that can be raised by the code under
`src/homework.py`, each carrying the string that `str(exception)`
yields.  (For the classes of `exceptions.py` whose `__init__` overwrites
`self.message` without calling `super().__init__`, `str(e)` still
renders the constructor argument because `BaseException.__new__` stores
the args; so the carried string is the message passed at the raise
site.) -/
inductive PyError where
  | connectionError (msg : String)
  | wrongAPIResponse (msg : String)
  | typeError (msg : String)
  | keyError (msg : String)
  | attributeError (msg : String)
  | jsonDecodeError (msg : String)
  | statusNotExpected (msg : String)
  | messageNotSent (msg : String)
deriving DecidableEq

/-- `str(e)` for each modelled exception. -/
def PyError.toStr : PyError → String
  | .connectionError m => m
  | .wrongAPIResponse m => m
  | .typeError m => m
  | .keyError m => m
  | .attributeError m => m
  | .jsonDecodeError m => m
  | .statusNotExpected m => m
  | .messageNotSent m => m

/-- `HOMEWORK_VERDICTS` (homework.py lines 31-35): the closed mapping
from status codes to human-readable verdicts. -/
def HOMEWORK_VERDICTS : List (String × String) :=
  [("approved", "Работа проверена: ревьюеру всё понравилось. Ура!"),
   ("reviewing", "Работа взята на проверку ревьюером."),
   ("rejected", "Работа проверена: у ревьюера есть замечания.")]

/-- `ENDPOINT` (homework.py line 27). -/
def ENDPOINT : String :=
  "https://practicum.yandex.ru/api/user_api/homework_statuses/"

/-- Python truthiness of an environment-variable value as `os.getenv`
returns it: `None` and the empty string are falsy, any other string is
truthy. -/
def truthy : Option String → Bool
  | none => false
  | some s => s != ""

/-- `check_tokens` (homework.py lines 47-55): `all` over the tuple
`(PRACTICUM_TOKEN, TELEGRAM_CHAT_ID, TELEGRAM_TOKEN)` of
environment-variable values. -/
def check_tokens (practicum_token telegram_token telegram_chat_id :
    Option String) : Bool :=
  truthy practicum_token && truthy telegram_chat_id && truthy telegram_token

/-- The fatal startup message of `main` (homework.py lines 181-185). -/
def fatalConfigMsg : String :=
  "Отсутсвуют обязательные переменные окружения: PRACTICUM_TOKEN," ++
  " TELEGRAM_TOKEN, TELEGRAM_CHAT_ID." ++
  " Программа принудительно остановлена."

/-- The configuration gate of `main` (homework.py lines 180-187): when
`check_tokens()` is falsy, log critical and `sys.exit(message)` before
the bot is constructed and before the poll loop is entered; the `error`
case models the `SystemExit` carrying the message. -/
def main_gate (practicum_token telegram_token telegram_chat_id :
    Option String) : Except String Unit :=
  if check_tokens practicum_token telegram_token telegram_chat_id then
    .ok ()
  else
    .error fatalConfigMsg

/-- Python dict lookup (first matching key; JSON-decoded dicts have
unique keys). -/
def dictGet (kvs : List (String × Json)) (k : String) : Option Json :=
  kvs.lookup k

/-- Python `k in dict`: the key is present. -/
def dictHasKey (kvs : List (String × Json)) (k : String) : Bool :=
  (dictGet kvs k).isSome

/-- What the HTTP collaborator (`requests.get`, homework.py line 101)
does on one call: either the call raises (transport failure, carrying
`str` of the raised exception), or it returns a response with a status
code, a reason phrase, a raw text body, and the result of decoding that
body as JSON (`none` when `response.json()` would raise). -/
inductive HttpOutcome where
  | failure (error : String)
  | response (status : Nat) (reason : String) (text : String)
      (json : Option Json)

/-- Python `repr` of the `request_params` dict built at homework.py
lines 89-93, as interpolated into the non-200 error message. -/
def requestParamsRepr (token : String) (timestamp : Json) : String :=
  "\x7b\x27url\x27: \x27" ++ ENDPOINT ++ "\x27, " ++
  "\x27headers\x27: \x7b\x27Authorization\x27: \x27OAuth " ++ token ++
  "\x27\x7d, " ++
  "\x27params\x27: \x7b\x27from_date\x27: " ++ pyRepr timestamp ++
  "\x7d\x7d"

/-- The `ConnectionError` message built at homework.py lines 103-112
(`.format` substitutes `url`, the raised error, `headers` and `params`
into the template). -/
def connectionErrorMsg (token : String) (timestamp : Json)
    (error : String) : String :=
  "Во время подключения к эндпоинту " ++ ENDPOINT ++ " произошла" ++
  " непредвиденная ошибка: " ++ error ++
  " headers = \x7b\x27Authorization\x27: \x27OAuth " ++ token ++
  "\x27\x7d; params = \x7b\x27from_date\x27: " ++ pyRepr timestamp ++
  "\x7d;"

/-- The `WrongAPIResponse` message built at homework.py lines 115-118
for a non-200 status: it carries the request params, the status code,
the reason phrase and the raw body. -/
def badStatusMsg (token : String) (timestamp : Json) (status : Nat)
    (reason : String) (text : String) : String :=
  "Ответ сервера не является успешным:" ++
  " request params = " ++ requestParamsRepr token timestamp ++ ";" ++
  " http_code = " ++ toString status ++ ";" ++
  " reason = " ++ reason ++ "; content = " ++ text

/-- Representative message of the `json.JSONDecodeError` that
`response.json()` (homework.py line 121) raises on an undecodable body;
the exact text depends on the body and does not matter to any claim. -/
def jsonDecodeErrorMsg : String :=
  "Expecting value: line 1 column 1 (char 0)"

/-- `get_api_answer` (homework.py lines 80-122): a transport failure of
`requests.get` is re-raised as `ConnectionError`; a non-200 status
raises `WrongAPIResponse` with the status, reason and body; on a 200
response the body is JSON-decoded, and a decode failure propagates as
`json.JSONDecodeError` (the `try` only wraps the `requests.get` call,
so the status check happens before any decoding). -/
def get_api_answer (token : String) (timestamp : Json)
    (out : HttpOutcome) : Except PyError Json :=
  match out with
  | .failure error =>
      .error (.connectionError (connectionErrorMsg token timestamp error))
  | .response status reason text json =>
      if status ≠ 200 then
        .error (.wrongAPIResponse
          (badStatusMsg token timestamp status reason text))
      else
        match json with
        | some v => .ok v
        | none => .error (.jsonDecodeError jsonDecodeErrorMsg)

/-- `check_response` (homework.py lines 125-144): reject a non-dict
with `TypeError`, a dict missing `homeworks` or `current_date` with
`WrongAPIResponse`, a non-list `homeworks` with `TypeError`; otherwise
return the `homeworks` list.  The type of `current_date` is never
inspected. -/
def check_response (response : Json) : Except PyError (List Json) :=
  match response with
  | .obj kvs =>
      if !dictHasKey kvs "homeworks" || !dictHasKey kvs "current_date" then
        .error (.wrongAPIResponse
          ("Я.Практикум вернул неожиданную структуру json: " ++
            pyStr response))
      else
        match dictGet kvs "homeworks" with
        | some (.arr hs) => .ok hs
        | _ =>
            .error (.typeError
              ("Я.Практикум вернул неожиданный homeworks: " ++
                pyStr response))
  | _ => .error (.typeError "Ошибка в типе ответа API")

/-- The membership test `status not in HOMEWORK_VERDICTS` (homework.py
line 169).  Python dict membership first hashes the candidate: an
unhashable value — a list or a dict, both reachable from decoded JSON —
raises `TypeError: unhashable type` out of the test itself.  A hashable
value is compared with the keys, all strings, so only a string can be a
member; `ok (some verdict)` when the status is a known key, `ok none`
when it is hashable but unknown. -/
def verdictOf : Json → Except PyError (Option String)
  | .arr _ => .error (.typeError "unhashable type: \x27list\x27")
  | .obj _ => .error (.typeError "unhashable type: \x27dict\x27")
  | .str s => .ok (HOMEWORK_VERDICTS.lookup s)
  | _ => .ok none

/-- `parse_status` (homework.py lines 147-175) on a homework record
(dict): require `homework_name`, require `status`, then run the
membership test on the status value — an unhashable status propagates
the `TypeError` raised by the test, a hashable status outside the
`HOMEWORK_VERDICTS` keys raises `StatusNotExpected` whose message
interpolates the offending value, and a known key produces the
fixed-template message.  A non-dict argument is modelled as the
`TypeError` Python's membership test raises on a non-container (the
poll loop only reaches `parse_status` after subscripting the record, so
only dicts arrive here). -/
def parse_status (homework : Json) : Except PyError String :=
  match homework with
  | .obj kvs =>
      match dictGet kvs "homework_name" with
      | none =>
          .error (.wrongAPIResponse
            ("Я.Практикум вернул json без homework_name: " ++
              pyStr homework))
      | some homework_name =>
          match dictGet kvs "status" with
          | none =>
              .error (.wrongAPIResponse
                ("Я.Практикум вернул json без status: " ++
                  pyStr homework))
          | some status =>
              match verdictOf status with
              | .error e => .error e
              | .ok none =>
                  .error (.statusNotExpected
                    ("Я.Практикум вернул неожиданный статус: " ++
                      pyStr status))
              | .ok (some verdict) =>
                  .ok ("Изменился статус проверки работы \"" ++
                    pyStr homework_name ++ "\". " ++ verdict)
  | _ => .error (.typeError "argument of type is not iterable")

/-- The two environment values the poll loop itself uses: the API token
(interpolated into request headers and diagnostics) and the destination
chat identifier (`TELEGRAM_CHAT_ID`). -/
structure Config where
  practicum_token : String
  telegram_chat_id : String

/-- The `current_report` / `prev_report` dicts of `main` (homework.py
line 191): a `name` field (a raw JSON value copied from
`homework_name`, initially the empty string) and an `output` field (the
message text, initially empty). -/
structure Report where
  name : Json
  output : String
deriving DecidableEq

/-- What `main` passes to `send_message` as the `message` argument.
`main` only ever passes the `current_report` dict itself (homework.py
lines 208 and 217), never a plain string; both shapes are modelled so
that the distinction is expressible. -/
inductive PyValue where
  | str (s : String)
  | dict (r : Report)
deriving DecidableEq

/-- One call of the Telegram collaborator `bot.send_message`
(homework.py lines 68-71): the destination chat id and the `text`
argument. -/
structure SendCall where
  chat_id : String
  text : PyValue
deriving DecidableEq

/-- `send_message` (homework.py lines 58-77): delegate to
`bot.send_message(chat_id=TELEGRAM_CHAT_ID, text=message)`; when the
collaborator raises `telegram.error.TelegramError` (modelled by
`ok = false`), log and raise `MessageNotSent`. -/
def send_message (cfg : Config) (ok : Bool) (message : PyValue) :
    Except PyError SendCall :=
  if ok then
    .ok ⟨cfg.telegram_chat_id, message⟩
  else
    .error (.messageNotSent "Сообщение не удалось отправить")

/-- The in-memory state of the poll loop (homework.py lines 190-192),
extended with the trace of `bot.send_message` calls so that delivered
notifications are observable: `attempted` records every call of the
collaborator, `sent` only the successful ones. -/
structure LoopState where
  current_timestamp : Json
  current_report : Report
  prev_report : Report
  attempted : List SendCall
  sent : List SendCall
deriving DecidableEq

/-- The loop state at startup (homework.py lines 190-192):
`current_timestamp = int(time.time())` (the parameter `t0`) and both
reports `\x7b'name': '', 'output': ''\x7d`. -/
def initState (t0 : Int) : LoopState :=
  { current_timestamp := .num t0
  , current_report := { name := .str "", output := "" }
  , prev_report := { name := .str "", output := "" }
  , attempted := []
  , sent := [] }

/-- The message synthesized for an empty `homeworks` list (homework.py
lines 203-206). -/
def emptyHomeworksMsg (ts : Json) : String :=
  "За период от " ++ pyStr ts ++
  " до настоящего момента домашних работ нет."

/-- Python subscription `value[key]` with a string key (homework.py
line 200): a dict yields the value or raises `KeyError`; other shapes
raise `TypeError` (messages representative). -/
def pyGetItem (v : Json) (k : String) : Except PyError Json :=
  match v with
  | .obj kvs =>
      match dictGet kvs k with
      | some x => .ok x
      | none => .error (.keyError ("\x27" ++ k ++ "\x27"))
  | .arr _ => .error (.typeError "list indices must be integers or slices, not str")
  | .str _ => .error (.typeError "string indices must be integers")
  | _ => .error (.typeError "object is not subscriptable")

/-- The result of the body of the `try:` block of one loop iteration up
to (but excluding) the send/dedup step (homework.py lines 196-206): the
cursor and report after the iteration's in-place mutations, and the
exception raised in this stretch, if any.  Mutations performed before a
raise are kept, as with Python's in-place dict updates. -/
structure TryOutcome where
  ts : Json
  report : Report
  err : Option PyError

/-- Lines 196-206 of `main`: fetch (`get_api_answer`), cursor update
(`response.get('current_date', current_timestamp)` — an
`AttributeError` when the decoded payload is not a dict), validation
(`check_response`), then either the homework branch (subscript the
first record for `name`, then `parse_status` for `output`) or the
empty-homeworks message. -/
def tryPipeline (cfg : Config) (ts : Json) (report : Report)
    (http : HttpOutcome) : TryOutcome :=
  match get_api_answer cfg.practicum_token ts http with
  | .error e => ⟨ts, report, some e⟩
  | .ok response =>
      match response with
      | .obj kvs =>
          let ts' := (dictGet kvs "current_date").getD ts
          match check_response response with
          | .error e => ⟨ts', report, some e⟩
          | .ok hws =>
              match hws with
              | [] => ⟨ts', { report with output := emptyHomeworksMsg ts' }, none⟩
              | first :: _ =>
                  match pyGetItem first "homework_name" with
                  | .error e => ⟨ts', report, some e⟩
                  | .ok hn =>
                      match parse_status first with
                      | .error e => ⟨ts', { report with name := hn }, some e⟩
                      | .ok s => ⟨ts', { name := hn, output := s }, none⟩
      | _ =>
          ⟨ts, report, some (.attributeError "object has no attribute get")⟩

/-- The `except Exception` handler of `main` (homework.py lines
212-218): build the diagnostic message from the caught error, overwrite
the report's `output`, and, when the updated report differs from the
last-sent one, call `send_message` again.  This second send is not
guarded: when the collaborator fails (`sendOk2 = false`) the raised
`MessageNotSent` escapes the `while` loop (the `error` result). -/
def exceptBranch (cfg : Config) (ts : Json) (report prev : Report)
    (attempted sent : List SendCall) (e : PyError) (sendOk2 : Bool) :
    Except PyError LoopState :=
  let report2 : Report :=
    { report with output := "Сбой в работе программы: " ++ e.toStr }
  if report2 ≠ prev then
    let call : SendCall := ⟨cfg.telegram_chat_id, .dict report2⟩
    if sendOk2 then
      .ok { current_timestamp := ts, current_report := report2
          , prev_report := report2
          , attempted := attempted ++ [call], sent := sent ++ [call] }
    else
      .error (.messageNotSent "Сообщение не удалось отправить")
  else
    .ok { current_timestamp := ts, current_report := report2
        , prev_report := prev, attempted := attempted, sent := sent }

/-- The per-call outcomes of the collaborators during one iteration:
the HTTP outcome, and whether each of the (up to two) Telegram sends
would succeed (`sendOk1` for the send inside the `try`, `sendOk2` for
the send inside the `except` handler). -/
structure IterInput where
  http : HttpOutcome
  sendOk1 : Bool
  sendOk2 : Bool

/-- One iteration of the `while True` loop of `main` (homework.py lines
194-220).  The `ok` result is the state at the end of the iteration
(after `time.sleep`); the `error` result is an exception escaping the
loop body, terminating the loop and the process. -/
def iterate (cfg : Config) (st : LoopState) (inp : IterInput) :
    Except PyError LoopState :=
  let t := tryPipeline cfg st.current_timestamp st.current_report inp.http
  match t.err with
  | none =>
      if t.report ≠ st.prev_report then
        let call : SendCall := ⟨cfg.telegram_chat_id, .dict t.report⟩
        if inp.sendOk1 then
          .ok { current_timestamp := t.ts, current_report := t.report
              , prev_report := t.report
              , attempted := st.attempted ++ [call]
              , sent := st.sent ++ [call] }
        else
          exceptBranch cfg t.ts t.report st.prev_report
            (st.attempted ++ [call]) st.sent
            (.messageNotSent "Сообщение не удалось отправить") inp.sendOk2
      else
        .ok { current_timestamp := t.ts, current_report := t.report
            , prev_report := st.prev_report
            , attempted := st.attempted, sent := st.sent }
  | some e =>
      exceptBranch cfg t.ts t.report st.prev_report st.attempted st.sent
        e inp.sendOk2

/-- Run the loop over a finite prefix of collaborator outcomes: the
state after those iterations, or the exception that terminated the
loop. -/
def run (cfg : Config) (st : LoopState) : List IterInput →
    Except PyError LoopState
  | [] => .ok st
  | inp :: rest =>
      match iterate cfg st inp with
      | .ok st' => run cfg st' rest
      | .error e => .error e

/-- The report computed by a successful pass of the iteration's
fetch/validate/format pipeline (`none` when that stretch of the
iteration raised). -/
def pipelineOk (cfg : Config) (st : LoopState) (http : HttpOutcome) :
    Option Report :=
  let t := tryPipeline cfg st.current_timestamp st.current_report http
  match t.err with
  | none => some t.report
  | some _ => none

/-- Number of successful notifications in a loop outcome. -/
def sentCount : Except PyError LoopState → Nat
  | .ok st => st.sent.length
  | .error _ => 0

/-- Whether a value handed to the Telegram collaborator's `text`
argument is a plain string. -/
def isPlainString : PyValue → Bool
  | .str _ => true
  | .dict _ => false

/-- A concrete configuration used by the concrete-input theorems. -/
def sampleCfg : Config := ⟨"tok", "chat"⟩

/-- A valid API payload whose first homework is `proj1` with status
`approved`, reported cursor 100. -/
def sampleResp : Json :=
  .obj [("homeworks",
          .arr [.obj [("homework_name", .str "proj1"),
                      ("status", .str "approved")]]),
        ("current_date", .num 100)]

/-- The report the loop computes from `sampleResp`. -/
def sampleReport : Report :=
  ⟨.str "proj1",
   "Изменился статус проверки работы \"proj1\". Работа проверена: ревьюеру всё понравилось. Ура!"⟩

/-- Iteration input: the fetch returns `sampleResp`, both potential
sends would succeed. -/
def sampleInp : IterInput :=
  ⟨.response 200 "OK" "body" (some sampleResp), true, true⟩

/-- The loop state after one `sampleInp` iteration from `initState 0`. -/
def sampleState : LoopState :=
  { current_timestamp := .num 100
  , current_report := sampleReport
  , prev_report := sampleReport
  , attempted := [⟨"chat", .dict sampleReport⟩]
  , sent := [⟨"chat", .dict sampleReport⟩] }

/-- A valid payload with an empty homeworks list and reported cursor
`d`. -/
def emptyResp (d : Int) : Json :=
  .obj [("homeworks", .arr []), ("current_date", .num d)]

/-- Iteration input: the fetch returns `emptyResp d`, both potential
sends would succeed. -/
def emptyInp (d : Int) : IterInput :=
  ⟨.response 200 "OK" "body" (some (emptyResp d)), true, true⟩

/-- The report of an empty-homeworks iteration at cursor `d` when the
report's `name` field holds `nm`. -/
def emptyReport (nm : Json) (d : Int) : Report :=
  ⟨nm, emptyHomeworksMsg (.num d)⟩

/-- The loop state after one `emptyInp d` iteration from `initState t0`. -/
def emptyIterState (d : Int) : LoopState :=
  { current_timestamp := .num d
  , current_report := emptyReport (.str "") d
  , prev_report := emptyReport (.str "") d
  , attempted := [⟨"chat", .dict (emptyReport (.str "") d)⟩]
  , sent := [⟨"chat", .dict (emptyReport (.str "") d)⟩] }

/-- The loop state after `sampleInp` and then `emptyInp 200` from
`initState 0`: the stale name `proj1` persists into the empty-state
report. -/
def staleNameState : LoopState :=
  { current_timestamp := .num 200
  , current_report := emptyReport (.str "proj1") 200
  , prev_report := emptyReport (.str "proj1") 200
  , attempted := [⟨"chat", .dict sampleReport⟩,
                  ⟨"chat", .dict (emptyReport (.str "proj1") 200)⟩]
  , sent := [⟨"chat", .dict sampleReport⟩,
             ⟨"chat", .dict (emptyReport (.str "proj1") 200)⟩] }

/-! ## Theorems -/

/-- The response used by the C7 witness: a mapping with `homeworks`
present (a sequence) but no `current_date` key. -/
def noCursorResp : List (String × Json) := [("homeworks", .arr [])]

/-- Helper: when the iteration's fetch/validate/format pipeline
succeeds with a report that differs from the last-sent one and the
Telegram send succeeds, the iteration sends exactly that report and
overwrites `prev_report` with it. -/
theorem iterate_sends (cfg : Config) (st : LoopState) (inp : IterInput)
    (r : Report) (hp : pipelineOk cfg st inp.http = some r)
    (hs : inp.sendOk1 = true) (hne : r ≠ st.prev_report) :
    iterate cfg st inp = .ok
      { current_timestamp :=
          (tryPipeline cfg st.current_timestamp st.current_report inp.http).ts
      , current_report := r, prev_report := r
      , attempted := st.attempted ++ [⟨cfg.telegram_chat_id, .dict r⟩]
      , sent := st.sent ++ [⟨cfg.telegram_chat_id, .dict r⟩] } := by
  simp only [pipelineOk] at hp
  split at hp
  next heq =>
    have hrep :
        (tryPipeline cfg st.current_timestamp st.current_report inp.http).report
          = r := by
      injection hp
    simp only [iterate, heq, hrep, hs, if_true]
    rw [if_pos hne]
  next heq => exact absurd hp (by simp)

/-- Helper: when the pipeline succeeds with a report equal to the
last-sent one, the iteration sends nothing and leaves `prev_report`,
`attempted` and `sent` untouched. -/
theorem iterate_suppresses (cfg : Config) (st : LoopState)
    (inp : IterInput) (r : Report)
    (hp : pipelineOk cfg st inp.http = some r)
    (heq : r = st.prev_report) :
    iterate cfg st inp = .ok
      { current_timestamp :=
          (tryPipeline cfg st.current_timestamp st.current_report inp.http).ts
      , current_report := r, prev_report := st.prev_report
      , attempted := st.attempted, sent := st.sent } := by
  simp only [pipelineOk] at hp
  split at hp
  next herr =>
    have hrep :
        (tryPipeline cfg st.current_timestamp st.current_report inp.http).report
          = r := by
      injection hp
    simp only [iterate, herr, hrep]
    rw [if_neg (by simp [heq])]
  next herr => exact absurd hp (by simp)

/-- Helper: the `except`-branch re-send cannot raise when the Telegram
collaborator succeeds. -/
theorem exceptBranch_sendOk (cfg : Config) (ts : Json)
    (report prev : Report) (attempted sent : List SendCall)
    (e : PyError) :
    (exceptBranch cfg ts report prev attempted sent e true).isOk = true := by
  unfold exceptBranch
  by_cases h :
      ({ report with output := "Сбой в работе программы: " ++ e.toStr }
        : Report) ≠ prev
  · rw [if_pos h]
    simp [Except.isOk, Except.toBool]
  · rw [if_neg h]
    simp [Except.isOk, Except.toBool]

/-- Helper: the only exception that can escape the loop body is the
`MessageNotSent` of the unguarded re-send in the `except` handler, and
only when that send fails. -/
theorem exceptBranch_error (cfg : Config) (ts : Json)
    (report prev : Report) (attempted sent : List SendCall)
    (e : PyError) (s2 : Bool) (e2 : PyError)
    (h : exceptBranch cfg ts report prev attempted sent e s2 = .error e2) :
    s2 = false ∧ e2 = .messageNotSent "Сообщение не удалось отправить" := by
  unfold exceptBranch at h
  by_cases hne :
      ({ report with output := "Сбой в работе программы: " ++ e.toStr }
        : Report) ≠ prev
  · rw [if_pos hne] at h
    cases s2 with
    | true => simp at h
    | false =>
        simp at h
        exact ⟨rfl, h.symm⟩
  · rw [if_neg hne] at h
    simp at h

/-- Claim C1: when two consecutive iterations' pipelines produce the
same report `r`, the loop notifies exactly once — on the first
iteration (given that `r` differs from the last-sent report and the
send succeeds), appending exactly one send of `r` and overwriting the
last-sent report with `r` — and the second iteration is suppressed,
sending nothing and leaving the last-sent report unchanged. -/
theorem claim_C1 (cfg : Config) (st st1 st2 : LoopState)
    (inp1 inp2 : IterInput) (r : Report)
    (hp1 : pipelineOk cfg st inp1.http = some r)
    (hs1 : inp1.sendOk1 = true)
    (hne : r ≠ st.prev_report)
    (h1 : iterate cfg st inp1 = .ok st1)
    (hp2 : pipelineOk cfg st1 inp2.http = some r)
    (h2 : iterate cfg st1 inp2 = .ok st2) :
    st1.sent = st.sent ++ [⟨cfg.telegram_chat_id, .dict r⟩] ∧
    st1.prev_report = r ∧
    st2.sent = st1.sent ∧
    st2.prev_report = st1.prev_report := by
  rw [iterate_sends cfg st inp1 r hp1 hs1 hne] at h1
  injection h1 with h1
  subst h1
  rw [iterate_suppresses cfg _ inp2 r hp2 rfl] at h2
  injection h2 with h2
  subst h2
  exact ⟨rfl, rfl, rfl, rfl⟩

/-- Witness for C1: from the initial state, the same `approved`
response twice sends one notification on the first iteration and none
on the second. -/
theorem claim_C1_witness :
    sampleState.sent = (initState 0).sent ++ [⟨"chat", .dict sampleReport⟩] ∧
    sampleState.prev_report = sampleReport ∧
    sampleState.sent = sampleState.sent ∧
    sampleState.prev_report = sampleState.prev_report :=
  claim_C1 sampleCfg (initState 0) sampleState sampleState
    sampleInp sampleInp sampleReport rfl rfl (by decide) rfl rfl rfl

/-- Counterexample to claim C2 as stated: an iteration whose fetch
fails with a transport error and whose failure-notification send also
fails terminates the loop — the `MessageNotSent` raised inside the
`except` handler is not swallowed. -/
theorem claim_C2_counterexample :
    iterate sampleCfg (initState 0) ⟨.failure "network down", true, false⟩ =
      .error (.messageNotSent "Сообщение не удалось отправить") :=
  rfl

/-- Claim C2 (amended): every error raised inside an iteration is
caught by the loop's handler and converted to a diagnostic
notification, and the iteration completes — unless the
failure-notification send itself fails, in which case (and only in
which case) the raised `MessageNotSent` escapes and terminates the
loop. -/
theorem claim_C2_amended (cfg : Config) (st : LoopState)
    (inp : IterInput) :
    (inp.sendOk2 = true → (iterate cfg st inp).isOk = true) ∧
    (∀ e, iterate cfg st inp = .error e →
      inp.sendOk2 = false ∧
      e = .messageNotSent "Сообщение не удалось отправить") := by
  obtain ⟨http, s1, s2⟩ := inp
  constructor
  · intro h2
    replace h2 : s2 = true := h2
    subst h2
    unfold iterate
    rcases herr :
        (tryPipeline cfg st.current_timestamp st.current_report http).err
        with _ | e1
    · simp only [herr]
      split
      · cases s1 with
        | true => simp [Except.isOk, Except.toBool]
        | false =>
            simp only [Bool.false_eq_true, if_false]
            exact exceptBranch_sendOk cfg _ _ _ _ _ _
      · simp [Except.isOk, Except.toBool]
    · simp only [herr]
      exact exceptBranch_sendOk cfg _ _ _ _ _ _
  · intro e he
    unfold iterate at he
    rcases herr :
        (tryPipeline cfg st.current_timestamp st.current_report http).err
        with _ | e1
    · simp only [herr] at he
      split at he
      · cases s1 with
        | true => simp at he
        | false =>
            simp only [Bool.false_eq_true, if_false] at he
            exact exceptBranch_error cfg _ _ _ _ _ _ _ _ he
      · simp at he
    · simp only [herr] at he
      exact exceptBranch_error cfg _ _ _ _ _ _ _ _ he

/-- Witness for C2 (amended): a transport-failure iteration whose
failure notification is delivered completes normally. -/
theorem claim_C2_amended_witness :
    (iterate sampleCfg (initState 0)
        ⟨.failure "network down", false, true⟩).isOk = true :=
  (claim_C2_amended sampleCfg (initState 0)
    ⟨.failure "network down", false, true⟩).1 rfl

/-- Helper: the pipeline of an iteration that fetches a valid response
with an empty homeworks list and reported cursor `d`: the cursor
becomes `d` and only the report's `output` field is rewritten, to the
synthesized empty-state message embedding `d`. -/
theorem tryPipeline_empty (cfg : Config) (ts : Json) (report : Report)
    (reason text : String) (kvs : List (String × Json)) (d : Json)
    (hcd : dictGet kvs "current_date" = some d)
    (hhw : dictGet kvs "homeworks" = some (.arr [])) :
    tryPipeline cfg ts report (.response 200 reason text (some (.obj kvs))) =
      ⟨d, { report with output := emptyHomeworksMsg d }, none⟩ := by
  unfold tryPipeline get_api_answer
  simp [check_response, dictHasKey, hcd, hhw]

/-- Helper: `pipelineOk` form of `tryPipeline_empty`. -/
theorem pipelineOk_empty (cfg : Config) (st : LoopState)
    (reason text : String) (kvs : List (String × Json)) (d : Json)
    (hcd : dictGet kvs "current_date" = some d)
    (hhw : dictGet kvs "homeworks" = some (.arr [])) :
    pipelineOk cfg st (.response 200 reason text (some (.obj kvs))) =
      some { st.current_report with output := emptyHomeworksMsg d } := by
  simp [pipelineOk,
    tryPipeline_empty cfg st.current_timestamp st.current_report
      reason text kvs d hcd hhw]

/-- Counterexample to claim C8 as stated: two consecutive iterations
both fetching valid empty-homeworks responses (reported cursors 100 and
200) each send a notification — the synthesized empty-state message
embeds the moving cursor, so the run is NOT limited to one
notification. -/
theorem claim_C8_counterexample :
    sentCount (run sampleCfg (initState 0) [emptyInp 100, emptyInp 200]) =
      2 :=
  rfl

/-- Claim C8 (amended): the empty-state message is deduplicated only up
to the embedded cursor: over two consecutive valid empty-homeworks
iterations whose responses report the same `current_date`, at most one
notification is sent (the second iteration is always suppressed);
when the reported cursor changes, the message changes and is re-sent. -/
theorem claim_C8_amended (cfg : Config) (st st1 st2 : LoopState)
    (inp1 inp2 : IterInput) (kvs1 kvs2 : List (String × Json)) (d : Json)
    (reason1 text1 reason2 text2 : String)
    (hh1 : inp1.http = .response 200 reason1 text1 (some (.obj kvs1)))
    (hh2 : inp2.http = .response 200 reason2 text2 (some (.obj kvs2)))
    (hcd1 : dictGet kvs1 "current_date" = some d)
    (hcd2 : dictGet kvs2 "current_date" = some d)
    (hhw1 : dictGet kvs1 "homeworks" = some (.arr []))
    (hhw2 : dictGet kvs2 "homeworks" = some (.arr []))
    (hs1 : inp1.sendOk1 = true)
    (h1 : iterate cfg st inp1 = .ok st1)
    (h2 : iterate cfg st1 inp2 = .ok st2) :
    st1.sent.length ≤ st.sent.length + 1 ∧ st2.sent = st1.sent := by
  have hp1 : pipelineOk cfg st inp1.http =
      some { st.current_report with output := emptyHomeworksMsg d } := by
    rw [hh1]; exact pipelineOk_empty cfg st reason1 text1 kvs1 d hcd1 hhw1
  by_cases hc :
      ({ st.current_report with output := emptyHomeworksMsg d } : Report) =
        st.prev_report
  · rw [iterate_suppresses cfg st inp1 _ hp1 hc] at h1
    injection h1 with h1
    have hp2 : pipelineOk cfg st1 inp2.http =
        some { st.current_report with output := emptyHomeworksMsg d } := by
      rw [← h1, hh2]
      exact pipelineOk_empty cfg _ reason2 text2 kvs2 d hcd2 hhw2
    have heq2 :
        ({ st.current_report with output := emptyHomeworksMsg d } : Report) =
          st1.prev_report := by
      rw [← h1]; exact hc
    rw [iterate_suppresses cfg st1 inp2 _ hp2 heq2] at h2
    injection h2 with h2
    constructor
    · rw [← h1]
      exact Nat.le_succ_of_le (Nat.le_refl _)
    · rw [← h2]
  · rw [iterate_sends cfg st inp1 _ hp1 hs1 hc] at h1
    injection h1 with h1
    have hp2 : pipelineOk cfg st1 inp2.http =
        some { st.current_report with output := emptyHomeworksMsg d } := by
      rw [← h1, hh2]
      exact pipelineOk_empty cfg _ reason2 text2 kvs2 d hcd2 hhw2
    have heq2 :
        ({ st.current_report with output := emptyHomeworksMsg d } : Report) =
          st1.prev_report := by
      rw [← h1]
    rw [iterate_suppresses cfg st1 inp2 _ hp2 heq2] at h2
    injection h2 with h2
    constructor
    · rw [← h1]
      simp
    · rw [← h2]

/-- Witness for C8 (amended): two consecutive empty responses with the
same cursor 100 produce exactly one notification, the second iteration
changing nothing. -/
theorem claim_C8_amended_witness :
    (emptyIterState 100).sent.length ≤ (initState 0).sent.length + 1 ∧
    (emptyIterState 100).sent = (emptyIterState 100).sent :=
  claim_C8_amended sampleCfg (initState 0) (emptyIterState 100)
    (emptyIterState 100) (emptyInp 100) (emptyInp 100)
    [("homeworks", .arr []), ("current_date", .num 100)]
    [("homeworks", .arr []), ("current_date", .num 100)]
    (.num 100) "OK" "body" "OK" "body"
    rfl rfl rfl rfl rfl rfl rfl rfl rfl

/-- Claim C9 (code bug): on a successful notification, `main` hands the
whole `current_report` dict to `send_message`, which passes it on as
the Telegram `text` argument — the payload is the dict wrapping the
message string (and the stale name), not the plain-text body itself. -/
theorem claim_C9_bug :
    run sampleCfg (initState 0) [sampleInp] = .ok sampleState ∧
    sampleState.sent = [⟨"chat", .dict sampleReport⟩] ∧
    sampleState.sent.map (fun c => isPlainString c.text) = [false] :=
  ⟨rfl, rfl, rfl⟩

/-- Claim C10: an iteration receiving a valid empty-homeworks response
overwrites only the report's `output` field: the `name` field persists
unchanged from the previous state, and the duplicate-suppression
comparison covers that stale name (the iteration is suppressed exactly
when both the stale name and the synthesized output already match the
last-sent report). -/
theorem claim_C10 (cfg : Config) (st st' : LoopState) (inp : IterInput)
    (kvs : List (String × Json)) (d : Json) (reason text : String)
    (hh : inp.http = .response 200 reason text (some (.obj kvs)))
    (hcd : dictGet kvs "current_date" = some d)
    (hhw : dictGet kvs "homeworks" = some (.arr []))
    (hs1 : inp.sendOk1 = true)
    (h : iterate cfg st inp = .ok st') :
    st'.current_report.name = st.current_report.name ∧
    st'.current_report.output = emptyHomeworksMsg d ∧
    (st'.sent = st.sent ↔
      (st.current_report.name = st.prev_report.name ∧
        emptyHomeworksMsg d = st.prev_report.output)) := by
  have hp : pipelineOk cfg st inp.http =
      some { st.current_report with output := emptyHomeworksMsg d } := by
    rw [hh]; exact pipelineOk_empty cfg st reason text kvs d hcd hhw
  have hiff :
      ({ st.current_report with output := emptyHomeworksMsg d } : Report) =
          st.prev_report ↔
        (st.current_report.name = st.prev_report.name ∧
          emptyHomeworksMsg d = st.prev_report.output) := by
    constructor
    · intro he
      constructor
      · rw [← he]
      · rw [← he]
    · rintro ⟨ha, hb⟩
      have hexp : st.prev_report =
          ⟨st.prev_report.name, st.prev_report.output⟩ := rfl
      rw [hexp, ← ha, ← hb]
  by_cases hc :
      ({ st.current_report with output := emptyHomeworksMsg d } : Report) =
        st.prev_report
  · rw [iterate_suppresses cfg st inp _ hp hc] at h
    injection h with h
    subst h
    exact ⟨rfl, rfl, iff_of_true rfl (hiff.mp hc)⟩
  · rw [iterate_sends cfg st inp _ hp hs1 hc] at h
    injection h with h
    subst h
    refine ⟨rfl, rfl, iff_of_false (by simp) (fun hr => hc (hiff.mpr hr))⟩

/-- Witness for C10: a non-empty `proj1` iteration followed by an empty
one: the empty iteration keeps the stale name `proj1` and, because the
synthesized output differs from the last-sent one, still notifies. -/
theorem claim_C10_witness :
    staleNameState.current_report.name = sampleState.current_report.name ∧
    staleNameState.current_report.output = emptyHomeworksMsg (.num 200) ∧
    (staleNameState.sent = sampleState.sent ↔
      (sampleState.current_report.name = sampleState.prev_report.name ∧
        emptyHomeworksMsg (.num 200) = sampleState.prev_report.output)) :=
  claim_C10 sampleCfg sampleState staleNameState (emptyInp 200)
    [("homeworks", .arr []), ("current_date", .num 200)]
    (.num 200) "OK" "body" rfl rfl rfl rfl rfl

/-- Claim C3: `get_api_answer` maps each failure mode to its own
distinct error kind — a transport failure of the HTTP request raises
`ConnectionError`; any non-200 response raises `WrongAPIResponse`
carrying the status code, reason and raw body (in particular a 500
response with an undecodable body, since the status check precedes
decoding); and a JSON-decode failure on a 200 response raises
`JSONDecodeError`. -/
theorem claim_C3 (token : String) (ts : Json) :
    (∀ err, get_api_answer token ts (.failure err) =
        .error (.connectionError (connectionErrorMsg token ts err))) ∧
    (∀ status reason text json, status ≠ 200 →
        get_api_answer token ts (.response status reason text json) =
          .error (.wrongAPIResponse
            ("Ответ сервера не является успешным:" ++
             " request params = " ++ requestParamsRepr token ts ++ ";" ++
             " http_code = " ++ toString status ++ ";" ++
             " reason = " ++ reason ++ "; content = " ++ text))) ∧
    (∀ reason text,
        get_api_answer token ts (.response 200 reason text none) =
          .error (.jsonDecodeError jsonDecodeErrorMsg)) ∧
    (∀ reason text v,
        get_api_answer token ts (.response 200 reason text (some v)) =
          .ok v) := by
  refine ⟨fun err => rfl, fun status reason text json h => ?_,
    fun reason text => rfl, fun reason text v => rfl⟩
  simp [get_api_answer, h, badStatusMsg]

/-- Witness for C3: a 500 response with an undecodable body yields the
unexpected-status kind (`WrongAPIResponse`), never the malformed-payload
kind. -/
theorem claim_C3_witness :
    get_api_answer "tok" (.num 0)
        (.response 500 "Internal Server Error" "<html>" none) =
      .error (.wrongAPIResponse
        ("Ответ сервера не является успешным:" ++
         " request params = " ++ requestParamsRepr "tok" (.num 0) ++ ";" ++
         " http_code = " ++ toString 500 ++ ";" ++
         " reason = " ++ "Internal Server Error" ++ "; content = " ++
         "<html>")) :=
  (claim_C3 "tok" (.num 0)).2.1 500 "Internal Server Error" "<html>" none
    (by decide)

/-- Claim C4: the startup gate succeeds exactly when all three
credentials are set and non-empty; otherwise the process exits with the
fatal configuration message before the poll loop. -/
theorem claim_C4 (p t c : Option String) :
    (main_gate p t c = .ok () ↔
      ((∃ s, p = some s ∧ s ≠ "") ∧ (∃ s, t = some s ∧ s ≠ "") ∧
        (∃ s, c = some s ∧ s ≠ ""))) ∧
    (main_gate p t c = .ok () ∨ main_gate p t c = .error fatalConfigMsg) := by
  constructor
  · have hok : main_gate p t c = .ok () ↔ check_tokens p t c = true := by
      unfold main_gate
      split <;> simp_all
    rw [hok]
    cases p <;> cases t <;> cases c <;>
      simp [check_tokens, truthy, bne_iff_ne]
    all_goals tauto
  · unfold main_gate
    split
    · exact .inl rfl
    · exact .inr rfl

/-- Counterexample to claim C5 as stated: a record whose status value
is an unhashable list does NOT fail with `StatusNotExpected` — the
membership test `status not in HOMEWORK_VERDICTS` itself raises
`TypeError: unhashable type`, although the status is not one of the
known keys. -/
theorem claim_C5_counterexample :
    parse_status (.obj [("homework_name", .str "p"),
                        ("status", .arr [.str "x"])]) =
      .error (.typeError "unhashable type: \x27list\x27") :=
  rfl

/-- Claim C5 (amended): `parse_status` is a pure deterministic function
of its record argument; on a record whose status value is hashable (not
a list or dict) and not a key of `HOMEWORK_VERDICTS` it fails with
`StatusNotExpected` whose message names the offending status value;
on a record whose status value is unhashable (a list or dict) it fails
instead with the `TypeError` raised by the membership test itself. -/
theorem claim_C5_amended :
    (∀ h1 h2 : Json, h1 = h2 → parse_status h1 = parse_status h2) ∧
    (∀ kvs nameV statusV,
      dictGet kvs "homework_name" = some nameV →
      dictGet kvs "status" = some statusV →
      verdictOf statusV = .ok none →
      parse_status (.obj kvs) =
        .error (.statusNotExpected
          ("Я.Практикум вернул неожиданный статус: " ++ pyStr statusV))) ∧
    (∀ kvs nameV statusV e,
      dictGet kvs "homework_name" = some nameV →
      dictGet kvs "status" = some statusV →
      verdictOf statusV = .error e →
      parse_status (.obj kvs) = .error e) := by
  refine ⟨fun h1 h2 he => he ▸ rfl,
    fun kvs nameV statusV hn hs hv => ?_,
    fun kvs nameV statusV e hn hs hv => ?_⟩
  · simp [parse_status, hn, hs, hv]
  · simp [parse_status, hn, hs, hv]

/-- Witness for C5 (amended): a record with the unknown hashable status
code `unknown` fails with `StatusNotExpected`, the code named in the
message. -/
theorem claim_C5_amended_witness :
    parse_status (.obj [("homework_name", .str "p"),
                        ("status", .str "unknown")]) =
      .error (.statusNotExpected
        ("Я.Практикум вернул неожиданный статус: " ++ pyStr (.str "unknown"))) :=
  claim_C5_amended.2.1 [("homework_name", .str "p"), ("status", .str "unknown")]
    (.str "p") (.str "unknown") rfl rfl rfl

/-- Claim C6: the record with homework_name `proj1` and status
`approved` formats to exactly the fixed template with the name and the
approved verdict substituted in. -/
theorem claim_C6 :
    parse_status (.obj [("homework_name", .str "proj1"),
                        ("status", .str "approved")]) =
      .ok "Изменился статус проверки работы \"proj1\". Работа проверена: ревьюеру всё понравилось. Ура!" :=
  rfl

/-- Counterexample to claim C7 as stated: a response whose
`current_date` is present but is a string, not an integer timestamp, is
accepted by `check_response` (it returns the homeworks list), not
rejected wholesale. -/
theorem claim_C7_counterexample :
    check_response (.obj [("homeworks", .arr []),
                          ("current_date", .str "not a timestamp")]) =
      .ok [] :=
  rfl

/-- Claim C7 (amended): `check_response` accepts exactly the mappings
that contain a `current_date` key (of any type — the timestamp type is
never checked) and a `homeworks` key holding a sequence; a non-mapping
is rejected, and a mapping missing `current_date` is rejected with
`WrongAPIResponse` regardless of the shape of `homeworks`. -/
theorem claim_C7_amended :
    (∀ kvs, (check_response (.obj kvs)).isOk = true ↔
        (dictHasKey kvs "current_date" = true ∧
          ∃ hs, dictGet kvs "homeworks" = some (.arr hs))) ∧
    (∀ r : Json, (∀ kvs, r ≠ .obj kvs) → (check_response r).isOk = false) ∧
    (∀ kvs, dictHasKey kvs "current_date" = false →
        check_response (.obj kvs) =
          .error (.wrongAPIResponse
            ("Я.Практикум вернул неожиданную структуру json: " ++
              pyStr (.obj kvs)))) := by
  refine ⟨fun kvs => ?_, fun r hr => ?_, fun kvs hcd => ?_⟩
  · rcases hhw : dictGet kvs "homeworks" with _ | v
    · simp [check_response, dictHasKey, hhw, Except.isOk, Except.toBool]
    · rcases hcd : dictGet kvs "current_date" with _ | w
      · simp [check_response, dictHasKey, hhw, hcd, Except.isOk, Except.toBool]
      · rcases v with _ | b | n | s | hs | kvs2 <;>
          simp [check_response, dictHasKey, hhw, hcd, Except.isOk, Except.toBool]
  · cases r
    case obj kvs => exact absurd rfl (hr kvs)
    all_goals simp [check_response, Except.isOk, Except.toBool]
  · simp [check_response, dictHasKey] at hcd ⊢
    simp [hcd]

/-- Witness for C7 (amended): a mapping whose `homeworks` is a proper
sequence but which misses `current_date` is rejected with
`WrongAPIResponse`. -/
theorem claim_C7_amended_witness :
    check_response (.obj noCursorResp) =
      .error (.wrongAPIResponse
        ("Я.Практикум вернул неожиданную структуру json: " ++
          pyStr (.obj noCursorResp))) :=
  claim_C7_amended.2.2 noCursorResp rfl

end HomeworkBot

